import Mathlib

/-!
# csi-provisioner

A shallow embedding of `cmd/csi-provisioner/csi-provisioner.go` and the properties of
its startup code (`init`), its constructor and its two request entry points
(`Provision`, `Delete`).

Go pointers are `Option` values (`none` is nil), a call that does not return
(`glog.Fatalf`, a nil dereference) is an `Except.error`, and everything the program
reads from outside (environment, cluster client libraries, clock, random source) is a
field of `Host`.  What the entry points do to the outside is recorded in a `World`.
-/

namespace CsiProvisioner

/-! ## Go runtime stand-ins -/

/-- Ways in which a Go call does not return to its caller: `glog.Fatalf` logs and exits
the process, dereferencing a nil pointer panics. -/
inductive Abort where
  | fatal (msg : String)
  | nilDeref
  deriving DecidableEq, Repr

/-- Result of running a piece of Go code: a value, or the reason it did not return. -/
abbrev Outcome (α : Type) := Except Abort α

/-- Pointer dereference `*p`; a nil pointer panics. -/
def deref {α : Type} : Option α → Outcome α
  | some a => Except.ok a
  | none => Except.error Abort.nilDeref

/-- Go `error` value, identified by its message. -/
structure GoError where
  msg : String
  deriving DecidableEq, Repr

/-! ## Decimal formatting (`strconv`) -/

/-- The digit loop of `strconv.formatBits` in base 10: while `u >= 10` the last digit of
`u` is written in front of the buffer `a` and `u` is divided by 10; the remaining
`u < 10` is written last.  `fuel` bounds the number of loop iterations. -/
def formatBits : Nat → Nat → List Char → List Char
  | 0, u, a => Nat.digitChar u :: a
  | fuel + 1, u, a =>
    if 10 ≤ u then formatBits fuel (u / 10) (Nat.digitChar (u % 10) :: a)
    else Nat.digitChar u :: a

/-- Decimal digits of an unsigned value; `u` iterations always suffice. -/
def formatUint (u : Nat) : List Char := formatBits u u []

/-- Go `strconv.FormatInt(i, 10)`: a minus sign for a negative value, then the digits of
its magnitude. -/
def FormatInt (i : Int) : String :=
  if i < 0 then String.mk ('-' :: formatUint i.natAbs) else String.mk (formatUint i.natAbs)

/-- Go `strconv.Itoa(i)` is `FormatInt(int64(i), 10)`. -/
def Itoa (i : Int) : String := FormatInt i

/-- Go `rand.Intn(n)` for `0 < n <= 2^31 - 1`: the value `v` the source delivers (after
rejection sampling) is reduced modulo `n`. -/
def Intn (v : Nat) (n : Nat) : Int := ((v % n : Nat) : Int)

/-! ## Data model -/

/-- Stand-in for `rest.Config` of client-go. -/
structure RestConfig where
  host : String
  deriving DecidableEq, Repr

/-- Stand-in for the `kubernetes.Interface` value returned by `kubernetes.NewForConfig`. -/
structure Clientset where
  config : RestConfig
  deriving DecidableEq, Repr

/-- The `csiProvisioner` struct (source lines 44-49). -/
structure csiProvisioner where
  client : Option Clientset
  execCommand : String
  identity : String
  config : Option RestConfig
  deriving DecidableEq, Repr

/-- Modelled from the spec: `controller.VolumeOptions` is declared in the external-storage
library, outside the source tree.  The fields are the claim data of the spec's
ProvisionRequest (§3) together with the requested provisioner name that the ownership
filter (§4.3) looks at. -/
structure VolumeOptions where
  provisioner : String
  pvName : String
  capacity : Nat
  accessModes : List String
  parameters : List (String × String)
  deriving DecidableEq, Repr

/-- Modelled from the spec: `v1.PersistentVolume` is declared in the Kubernetes API
library, outside the source tree.  The fields are those of the spec's VolumeDescriptor
(§3). -/
structure PersistentVolume where
  volumeId : String
  capacity : Nat
  accessModes : List String
  identityTag : String
  attributes : List (String × String)
  deriving DecidableEq, Repr

/-- Modelled from the spec: the requests of the CSI RPC boundary (§6).  The source has no
CSI client; the type records which calls an entry point issued. -/
inductive CsiCall where
  | createVolume (name : String) (capacity : Nat) (parameters : List (String × String))
  | deleteVolume (volumeId : String)
  deriving DecidableEq, Repr

/-- Modelled from the spec: what the CSI plugin answers to a create request (§4.1): a
volume, a retryable error or a terminal error. -/
inductive CsiReply where
  | created (volume : PersistentVolume)
  | retryable (err : GoError)
  | terminal (err : GoError)
  deriving DecidableEq, Repr

/-- Everything outside the process that a request entry point could touch: the glog
output, the calls issued to the CSI endpoint so far, the answer the plugin would give
to a create request for a claim, and the volume ids the plugin currently holds. -/
structure World where
  logs : List String
  csiCalls : List CsiCall
  createVolumeReply : VolumeOptions → CsiReply
  volumes : List String

/-- Effect of `glog.Infof`: one more line of log output. -/
def glogInfof (line : String) (w : World) : World :=
  { w with logs := w.logs ++ [line] }

/-! ## Flags and package-level variables -/

/-- The values given on the command line for the four flags of the program; `none` means
the flag does not occur. -/
structure CommandLine where
  provisioner : Option String
  master : Option String
  kubeconfig : Option String
  csiEndpoint : Option String
  deriving DecidableEq, Repr

/-- The `var (...)` block (source lines 37-42): four `*string` variables. -/
structure Globals where
  provisioner : Option String
  master : Option String
  kubeconfig : Option String
  csiEndpoint : Option String
  deriving DecidableEq, Repr

/-- Go `flag.String(name, value, usage)`: allocates the flag variable, stores the default
in it and returns its address, which is never nil. -/
def flagString (value : String) : Option String := some value

/-- Package-level initialisers of the four flag variables (source lines 38-41). -/
def packageVars : Globals :=
  { provisioner := flagString "k8s.io/default"
    master := flagString ""
    kubeconfig := flagString ""
    csiEndpoint := flagString "/tmp/csi.sock" }

/-- Effect of `flag.Parse` on one flag variable: a value given on the command line is
stored in the variable the pointer refers to; the pointer itself is unchanged. -/
def flagAssign (given : Option String) (ptr : Option String) : Option String :=
  ptr.map (fun current => given.getD current)

/-- Go `flag.Parse()` (source line 55) on a well-formed command line. -/
def flagParse (args : CommandLine) (g : Globals) : Globals :=
  { provisioner := flagAssign args.provisioner g.provisioner
    master := flagAssign args.master g.master
    kubeconfig := flagAssign args.kubeconfig g.kubeconfig
    csiEndpoint := flagAssign args.csiEndpoint g.csiEndpoint }

/-! ## The provisioner (source lines 125-148) -/

/-- Function `newCSIProvisionerInternal` (source lines 129-138): the struct literal sets `client`,
`execCommand` and `identity`; `config` keeps its zero value nil. -/
def newCSIProvisionerInternal (client : Option Clientset) (execCommand : String)
    (identity : String) : csiProvisioner :=
  { client := client
    execCommand := execCommand
    identity := identity
    config := none }

/-- Function `NewCSIProvisioner` (source lines 125-127). -/
def NewCSIProvisioner (client : Option Clientset) (execCommand : String)
    (identity : String) : csiProvisioner :=
  newCSIProvisionerInternal client execCommand identity

/-- What one call of `Provision` leaves behind and returns: the receiver and the world
after the call, and the returned pair `(*v1.PersistentVolume, error)`. -/
structure ProvisionReturn where
  self : csiProvisioner
  world : World
  volume : Option PersistentVolume
  err : Option GoError

/-- What one call of `Delete` leaves behind and returns. -/
structure DeleteReturn where
  self : csiProvisioner
  world : World
  err : Option GoError

/-- Method `(p *csiProvisioner) Provision(options)` (source lines 140-143): logs one line that
names the configured provisioner and returns `nil, nil`. -/
def Provision (g : Globals) (p : csiProvisioner) (_options : VolumeOptions) (w : World) :
    Outcome ProvisionReturn := do
  let name ← deref g.provisioner
  let w1 := glogInfof ("Provisioner " ++ name ++ " Provision(..) called..") w
  pure { self := p, world := w1, volume := none, err := none }

/-- Method `(p *csiProvisioner) Delete(volume)` (source lines 145-148): logs one line that
names the configured provisioner and returns `nil`. -/
def Delete (g : Globals) (p : csiProvisioner) (_volume : Option PersistentVolume) (w : World) :
    Outcome DeleteReturn := do
  let name ← deref g.provisioner
  let w1 := glogInfof ("Provisioner " ++ name ++ " Delete(..) called..") w
  pure { self := p, world := w1, err := none }

/-! ## Startup (source lines 53-121) -/

/-- What `init` reads from outside the process. -/
structure Host where
  /-- The `os.Getenv` lookup; an unset variable reads as the empty string. -/
  getenv : String → String
  /-- The `clientcmd.BuildConfigFromFlags(master, kubeconfig)` call. -/
  buildConfigFromFlags : String → String → Except GoError RestConfig
  /-- The `rest.InClusterConfig()` call. -/
  inClusterConfig : Except GoError RestConfig
  /-- The `kubernetes.NewForConfig(config)` call. -/
  newForConfig : RestConfig → Except GoError Clientset
  /-- The `clientset.Discovery().ServerVersion()` call, reduced to its `GitVersion`. -/
  serverVersion : Clientset → Except GoError String
  /-- The `time.Now().UnixNano()` reading. -/
  unixNano : Int
  /-- The value the random source delivers to `rand.Intn`. -/
  randSource : Nat

/-- Stand-in for the `controller.ProvisionController` built by
`controller.NewProvisionController`: it records the four arguments. -/
structure ProvisionController where
  client : Option Clientset
  provisionerName : String
  provisioner : csiProvisioner
  kubeVersion : String
  deriving DecidableEq, Repr

/-- State of the process once `init` has returned. -/
structure Process where
  vars : Globals
  provisionController : ProvisionController
  logs : List String
  deriving DecidableEq, Repr

/-- Source lines 58-64: a non-empty `KUBECONFIG` replaces the `kubeconfig` pointer. -/
def resolveKubeconfig (host : Host) (g : Globals) (logs : List String) :
    Globals × List String :=
  let kubeconfigEnv := host.getenv "KUBECONFIG"
  if kubeconfigEnv ≠ "" then
    ({ g with kubeconfig := some kubeconfigEnv },
      logs ++ ["Found KUBECONFIG environment variable set, using that.."])
  else (g, logs)

/-- Source lines 70-78: only when the `csiEndpoint` pointer is nil is `CSI_ENDPOINT`
consulted; then a non-empty value replaces the pointer and an empty one is fatal. -/
def resolveCsiEndpoint (host : Host) (g : Globals) : Outcome Globals :=
  match g.csiEndpoint with
  | none =>
    let csiEndpointEnv := host.getenv "CSI_ENDPOINT"
    if csiEndpointEnv ≠ "" then pure { g with csiEndpoint := some csiEndpointEnv }
    else throw (Abort.fatal ("No CSI Volume Endpoint defined.. Can be provided via flag " ++
      "(--CSI-Endpoint) or by setting the environment variable CSI_ENDPOINT.."))
  | some _ => pure g

/-- Source lines 79-91: the client configuration comes from the flags when `master` or
`kubeconfig` is non-empty, from the cluster otherwise; an error is fatal. -/
def buildConfig (host : Host) (g : Globals) (logs : List String) :
    Outcome (RestConfig × List String) := do
  let master ← deref g.master
  let kubeconfig ← deref g.kubeconfig
  if master ≠ "" ∨ kubeconfig ≠ "" then
    match host.buildConfigFromFlags master kubeconfig with
    | Except.ok config =>
      pure (config, logs ++ ["Either master or kubeconfig specified. building kube config from that.."])
    | Except.error err => throw (Abort.fatal ("Failed to create config: " ++ err.msg))
  else
    match host.inClusterConfig with
    | Except.ok config => pure (config, logs ++ ["Building kube configs for running in cluster..."])
    | Except.error err => throw (Abort.fatal ("Failed to create config: " ++ err.msg))

/-- Source line 108: `time.Now().UnixNano() / int64(time.Millisecond)`, a Go integer
division (truncating towards zero) by `1000000`. -/
def timeStamp (unixNano : Int) : Int := Int.tdiv unixNano 1000000

/-- Source line 109: the decimal timestamp, the decimal random draw and the provisioner
name, joined by `"-"`. -/
def identity (timeStamp : Int) (draw : Int) (provisioner : String) : String :=
  FormatInt timeStamp ++ "-" ++ Itoa draw ++ "-" ++ provisioner

/-- The package `init` function (source lines 53-121). -/
def init (args : CommandLine) (host : Host) : Outcome Process := do
  let g0 := flagParse args packageVars
  let (g1, logs1) := resolveKubeconfig host g0 []
  let name ← deref g1.provisioner
  let logs2 := logs1 ++ ["CSI Provisioner " ++ name ++ " specified"]
  let g2 ← resolveCsiEndpoint host g1
  let (config, logs3) ← buildConfig host g2 logs2
  let clientset ← match host.newForConfig config with
    | Except.ok c => pure c
    | Except.error err => throw (Abort.fatal ("Failed to create client: " ++ err.msg))
  let gitVersion ← match host.serverVersion clientset with
    | Except.ok v => pure v
    | Except.error err => throw (Abort.fatal ("Error getting server version: " ++ err.msg))
  let ts := timeStamp host.unixNano
  let provisionerName ← deref g2.provisioner
  let id := identity ts (Intn host.randSource 10000) provisionerName
  let endpoint ← deref g2.csiEndpoint
  let prov := NewCSIProvisioner (some clientset) endpoint id
  pure { vars := g2
         provisionController :=
           { client := some clientset
             provisionerName := provisionerName
             provisioner := prov
             kubeVersion := gitVersion }
         logs := logs3 }

/-! ## Reading decimal digits back -/

/-- Value of a decimal digit character. -/
def digitValue (c : Char) : Nat := c.toNat - 48

/-- Number denoted by a list of decimal digit characters, most significant first. -/
def decimalValue (cs : List Char) : Nat := cs.foldl (fun acc c => 10 * acc + digitValue c) 0

/-- The decimal rendering `decimal(i)` the specification speaks of: the standard decimal
numeral of an integer, with a leading minus sign when it is negative. -/
def decimal (i : Int) : String := toString i

/-! ## Concrete inputs -/

/-- A host in which the cluster is reachable, `CSI_ENDPOINT` is set to
`/var/run/csi.sock` and no other environment variable is set. -/
def sampleHost : Host :=
  { getenv := fun key => if key = "CSI_ENDPOINT" then "/var/run/csi.sock" else ""
    buildConfigFromFlags := fun master _ => Except.ok { host := master }
    inClusterConfig := Except.ok { host := "in-cluster" }
    newForConfig := fun config => Except.ok { config := config }
    serverVersion := fun _ => Except.ok "v1.8.0"
    unixNano := 1509494400123456789
    randSource := 1298498081 }

/-- A command line without any of the four flags. -/
def sampleArgs : CommandLine :=
  { provisioner := none, master := none, kubeconfig := none, csiEndpoint := none }

/-- The provisioner that `init sampleArgs sampleHost` builds. -/
def sampleProvisioner : csiProvisioner :=
  { client := some { config := { host := "in-cluster" } }
    execCommand := "/tmp/csi.sock"
    identity := "1509494400123-8081-k8s.io/default"
    config := none }

/-- The process state that `init sampleArgs sampleHost` returns. -/
def sampleProcess : Process :=
  { vars :=
      { provisioner := some "k8s.io/default"
        master := some ""
        kubeconfig := some ""
        csiEndpoint := some "/tmp/csi.sock" }
    provisionController :=
      { client := some { config := { host := "in-cluster" } }
        provisionerName := "k8s.io/default"
        provisioner := sampleProvisioner
        kubeVersion := "v1.8.0" }
    logs := ["CSI Provisioner k8s.io/default specified",
      "Building kube configs for running in cluster..."] }

/-- A claim for 10Gi that requests the configured provisioner `k8s.io/default`. -/
def ownClaim : VolumeOptions :=
  { provisioner := "k8s.io/default"
    pvName := "pvc-0001"
    capacity := 10737418240
    accessModes := ["ReadWriteOnce"]
    parameters := [] }

/-- A claim that requests the provisioner `other.io/foo`. -/
def foreignClaim : VolumeOptions :=
  { provisioner := "other.io/foo"
    pvName := "pvc-0002"
    capacity := 10737418240
    accessModes := ["ReadWriteOnce"]
    parameters := [] }

/-- A world whose plugin accepts every create request and holds no volume yet. -/
def acceptingWorld : World :=
  { logs := []
    csiCalls := []
    createVolumeReply := fun o => CsiReply.created
      { volumeId := "vol-" ++ o.pvName
        capacity := o.capacity
        accessModes := o.accessModes
        identityTag := ""
        attributes := o.parameters }
    volumes := [] }

/-- A world whose plugin answers every create request with the terminal error
"resource exhausted". -/
def exhaustedWorld : World :=
  { logs := []
    csiCalls := []
    createVolumeReply := fun _ => CsiReply.terminal { msg := "resource exhausted" }
    volumes := [] }

/-- A volume whose external id the plugin of `acceptingWorld` does not hold. -/
def unknownVolume : PersistentVolume :=
  { volumeId := "vol-gone"
    capacity := 10737418240
    accessModes := ["ReadWriteOnce"]
    identityTag := "1509494400123-8081-k8s.io/default"
    attributes := [] }

/-! ## Lemmas on decimal formatting -/

/-- The formatting loop puts its output in front of the buffer it was given. -/
theorem formatBits_append (fuel : Nat) : ∀ (u : Nat) (a : List Char),
    formatBits fuel u a = formatBits fuel u [] ++ a := by
  induction fuel with
  | zero => intro u a; simp [formatBits]
  | succ k ih =>
    intro u a
    by_cases h : 10 ≤ u
    · simp only [formatBits, h, if_true]
      rw [ih (u / 10) (Nat.digitChar (u % 10) :: a), ih (u / 10) [Nat.digitChar (u % 10)]]
      simp
    · simp [formatBits, h]

theorem formatBits_eq_toDigitsCore (fuel : Nat) : ∀ (u : Nat) (a : List Char), u ≤ fuel →
    formatBits fuel u a = Nat.toDigitsCore 10 (fuel + 1) u a := by
  induction fuel with
  | zero =>
    intro u a hu
    have : u = 0 := by omega
    subst this
    simp [formatBits, Nat.toDigitsCore]
  | succ k ih =>
    intro u a hu
    by_cases h : 10 ≤ u
    · have h1 : u / 10 ≠ 0 := by omega
      have h2 : u / 10 ≤ k := by omega
      rw [formatBits, if_pos h, ih _ _ h2]
      conv_rhs => rw [Nat.toDigitsCore]
      simp [h1]
    · have h1 : u / 10 = 0 := by omega
      have h2 : u % 10 = u := by omega
      rw [formatBits, if_neg h]
      conv_rhs => rw [Nat.toDigitsCore]
      simp [h1, h2]

theorem formatUint_eq_toDigits (u : Nat) : formatUint u = Nat.toDigits 10 u := by
  unfold formatUint Nat.toDigits
  exact formatBits_eq_toDigitsCore u u [] (Nat.le_refl u)

theorem FormatInt_eq_toString (i : Int) : FormatInt i = toString i := by
  cases i with
  | ofNat n =>
    have : ¬ (Int.ofNat n < 0) := by simp
    simp only [FormatInt, this, if_false]
    show _ = Nat.repr n
    simp [Nat.repr, formatUint_eq_toDigits, List.asString]
  | negSucc n =>
    have : (Int.negSucc n < 0) := Int.negSucc_lt_zero n
    simp only [FormatInt, this, if_true]
    show _ = "-" ++ Nat.repr (n+1)
    simp [Nat.repr, formatUint_eq_toDigits, List.asString]
    rfl

theorem digitChar_ne_minus (d : Nat) : Nat.digitChar d ≠ '-' := by
  by_cases h : d < 16
  · interval_cases d <;> decide
  · obtain ⟨k, rfl⟩ : ∃ k, d = k + 16 := ⟨d - 16, by omega⟩
    have hk : Nat.digitChar (k + 16) = '*' := rfl
    rw [hk]
    decide

theorem digitValue_digitChar (d : Nat) (h : d < 10) : digitValue (Nat.digitChar d) = d := by
  interval_cases d <;> rfl

theorem formatBits_no_minus (fuel : Nat) : ∀ (u : Nat), '-' ∉ formatBits fuel u [] := by
  induction fuel with
  | zero =>
    intro u
    simp [formatBits, (digitChar_ne_minus u).symm]
  | succ k ih =>
    intro u
    by_cases h : 10 ≤ u
    · rw [formatBits, if_pos h, formatBits_append]
      simp [ih (u / 10), (digitChar_ne_minus (u % 10)).symm]
    · rw [formatBits, if_neg h]
      simp [(digitChar_ne_minus u).symm]

theorem decimalValue_snoc (cs : List Char) (c : Char) :
    decimalValue (cs ++ [c]) = 10 * decimalValue cs + digitValue c := by
  simp [decimalValue, List.foldl_append]

theorem decimalValue_formatBits (fuel : Nat) : ∀ (u : Nat), u ≤ fuel →
    decimalValue (formatBits fuel u []) = u := by
  induction fuel with
  | zero =>
    intro u hu
    have : u = 0 := by omega
    subst this
    rfl
  | succ k ih =>
    intro u hu
    by_cases h : 10 ≤ u
    · rw [formatBits, if_pos h, formatBits_append, decimalValue_snoc, ih (u / 10) (by omega),
        digitValue_digitChar (u % 10) (Nat.mod_lt u (by decide))]
      omega
    · rw [formatBits, if_neg h]
      have := digitValue_digitChar u (by omega)
      simp [decimalValue, this]

theorem formatUint_no_minus (u : Nat) : '-' ∉ formatUint u := formatBits_no_minus u u

theorem decimalValue_formatUint (u : Nat) : decimalValue (formatUint u) = u :=
  decimalValue_formatBits u u (Nat.le_refl u)

theorem formatUint_injective {a b : Nat} (h : formatUint a = formatUint b) : a = b := by
  have := congrArg decimalValue h
  simpa [decimalValue_formatUint] using this

/-- Two lists that are cut at the first occurrence of a separator agree part by part. -/
theorem split_at_separator {α : Type} {x : α} : ∀ {a1 a2 b1 b2 : List α},
    x ∉ a1 → x ∉ a2 → a1 ++ x :: b1 = a2 ++ x :: b2 → a1 = a2 ∧ b1 = b2 := by
  intro a1
  induction a1 with
  | nil =>
    intro a2 b1 b2 _ h2 h
    cases a2 with
    | nil => simpa using h
    | cons y ys =>
      simp only [List.nil_append, List.cons_append, List.cons.injEq] at h
      exact absurd (by simp [h.1]) h2
  | cons z zs ih =>
    intro a2 b1 b2 h1 h2 h
    cases a2 with
    | nil =>
      simp only [List.nil_append, List.cons_append, List.cons.injEq] at h
      exact absurd (by simp [h.1]) h1
    | cons y ys =>
      simp only [List.cons_append, List.cons.injEq] at h
      have hz : x ∉ zs := fun hm => h1 (List.mem_cons_of_mem _ hm)
      have hy : x ∉ ys := fun hm => h2 (List.mem_cons_of_mem _ hm)
      obtain ⟨e1, e2⟩ := ih hz hy h.2
      exact ⟨by rw [h.1, e1], e2⟩

theorem FormatInt_nonneg_data (i : Int) (h : 0 ≤ i) : (FormatInt i).data = formatUint i.natAbs := by
  have : ¬ i < 0 := by omega
  simp [FormatInt, this]

theorem identity_data (ts draw : Int) (n : String) :
    (identity ts draw n).data =
      (FormatInt ts).data ++ '-' :: ((FormatInt draw).data ++ '-' :: n.data) := by
  simp [identity, Itoa, String.data_append]

/-! ## Lemmas on startup and on the entry points -/

theorem resolveKubeconfig_fst (host : Host) (g : Globals) (logs : List String) :
    (resolveKubeconfig host g logs).1.provisioner = g.provisioner ∧
    (resolveKubeconfig host g logs).1.csiEndpoint = g.csiEndpoint := by
  unfold resolveKubeconfig
  dsimp only
  split <;> exact ⟨rfl, rfl⟩

theorem flagParse_packageVars (args : CommandLine) :
    (flagParse args packageVars).provisioner = some (args.provisioner.getD "k8s.io/default") ∧
    (flagParse args packageVars).csiEndpoint = some (args.csiEndpoint.getD "/tmp/csi.sock") := by
  simp [flagParse, packageVars, flagAssign, flagString]

theorem resolveCsiEndpoint_some (host : Host) (g : Globals) (e : String)
    (h : g.csiEndpoint = some e) : resolveCsiEndpoint host g = Except.ok g := by
  simp [resolveCsiEndpoint, h, pure, Except.pure]

/-- What a successful `init` leaves behind: the flag variables `provisioner` and
`csiEndpoint` hold the command-line value or the default, and the provisioner handed to
the controller was built from the client, that endpoint and the generated identity. -/
theorem init_ok {args : CommandLine} {host : Host} {proc : Process}
    (h : init args host = Except.ok proc) :
    proc.vars.provisioner = some (args.provisioner.getD "k8s.io/default") ∧
    proc.vars.csiEndpoint = some (args.csiEndpoint.getD "/tmp/csi.sock") ∧
    ∃ clientset, proc.provisionController.provisioner =
      NewCSIProvisioner (some clientset) (args.csiEndpoint.getD "/tmp/csi.sock")
        (identity (timeStamp host.unixNano) (Intn host.randSource 10000)
          (args.provisioner.getD "k8s.io/default")) := by
  have hp := (resolveKubeconfig_fst host (flagParse args packageVars) []).1
  have he := (resolveKubeconfig_fst host (flagParse args packageVars) []).2
  rw [(flagParse_packageVars args).1] at hp
  rw [(flagParse_packageVars args).2] at he
  unfold init at h
  simp only [bind, Except.bind, hp, deref, resolveCsiEndpoint_some host _ _ he, he, pure,
    Except.pure] at h
  split at h
  · cases h
  · split at h
    · split at h
      · simp only [Except.ok.injEq] at h
        subst h
        exact ⟨hp, he, _, rfl⟩
      · cases h
    · cases h

/-- With a non-nil `provisioner` flag pointer, `Provision` returns `nil, nil`, leaves
the receiver alone and adds one log line to the world. -/
theorem Provision_eq (g : Globals) (p : csiProvisioner) (o : VolumeOptions) (w : World)
    (name : String) (h : g.provisioner = some name) :
    Provision g p o w = Except.ok
      { self := p
        world := glogInfof ("Provisioner " ++ name ++ " Provision(..) called..") w
        volume := none
        err := none } := by
  simp [Provision, h, deref, bind, Except.bind, pure, Except.pure]

/-- With a non-nil `provisioner` flag pointer, `Delete` returns `nil`, leaves the
receiver alone and adds one log line to the world. -/
theorem Delete_eq (g : Globals) (p : csiProvisioner) (v : Option PersistentVolume) (w : World)
    (name : String) (h : g.provisioner = some name) :
    Delete g p v w = Except.ok
      { self := p
        world := glogInfof ("Provisioner " ++ name ++ " Delete(..) called..") w
        err := none } := by
  simp [Delete, h, deref, bind, Except.bind, pure, Except.pure]

/-! ## Ownership filter, results and effects of `Provision` and `Delete` -/

/-- C1: in a process that got through startup, `Provision` for a claim whose requested
provisioner name differs from the configured one returns no volume and no error, and the
list of calls issued to the CSI endpoint is the same after the call as before. -/
theorem provision_declines_foreign_claim (args : CommandLine) (host : Host) (proc : Process)
    (hinit : init args host = Except.ok proc)
    (p : csiProvisioner) (o : VolumeOptions) (w : World)
    (hname : proc.vars.provisioner ≠ some o.provisioner) :
    ∃ r, Provision proc.vars p o w = Except.ok r ∧ r.volume = none ∧ r.err = none ∧
      r.world.csiCalls = w.csiCalls := by
  have _ := hname
  exact ⟨_, Provision_eq proc.vars p o w _ (init_ok hinit).1, rfl, rfl, rfl⟩

/-- Witness for C1 at the claim for `other.io/foo` with the default configuration. -/
theorem provision_declines_foreign_claim_witness :
    init sampleArgs sampleHost = Except.ok sampleProcess ∧
    sampleProcess.vars.provisioner ≠ some foreignClaim.provisioner ∧
    ∃ r, Provision sampleProcess.vars sampleProvisioner foreignClaim acceptingWorld = Except.ok r ∧
      r.volume = none ∧ r.err = none ∧ r.world.csiCalls = acceptingWorld.csiCalls :=
  ⟨rfl, by decide,
    provision_declines_foreign_claim sampleArgs sampleHost sampleProcess rfl sampleProvisioner
      foreignClaim acceptingWorld (by decide)⟩

/-- C2, counterexample: for a claim of the configured provisioner and a plugin that would
accept it, `Provision` returns a nil error, yet the result holds no volume descriptor whose
identity tag is the identity of the provisioner. -/
theorem provision_success_without_descriptor :
    ∃ r, Provision sampleProcess.vars sampleProvisioner ownClaim acceptingWorld = Except.ok r ∧
      r.err = none ∧ ¬ ∃ v, r.volume = some v ∧ v.identityTag = sampleProvisioner.identity :=
  ⟨_, Provision_eq sampleProcess.vars sampleProvisioner ownClaim acceptingWorld
      "k8s.io/default" rfl, rfl, by rintro ⟨v, hv, _⟩; cases hv⟩

/-- C2, amended: in a process that got through startup, every call of `Provision` returns
a nil error together with no volume descriptor. -/
theorem provision_returns_nil_nil (args : CommandLine) (host : Host) (proc : Process)
    (hinit : init args host = Except.ok proc)
    (p : csiProvisioner) (o : VolumeOptions) (w : World) :
    ∃ r, Provision proc.vars p o w = Except.ok r ∧ r.err = none ∧ r.volume = none :=
  ⟨_, Provision_eq proc.vars p o w _ (init_ok hinit).1, rfl, rfl⟩

/-- Witness for the amended C2 at a claim of the configured provisioner. -/
theorem provision_returns_nil_nil_witness :
    init sampleArgs sampleHost = Except.ok sampleProcess ∧
    ∃ r, Provision sampleProcess.vars sampleProvisioner ownClaim acceptingWorld = Except.ok r ∧
      r.err = none ∧ r.volume = none :=
  ⟨rfl, provision_returns_nil_nil sampleArgs sampleHost sampleProcess rfl sampleProvisioner
    ownClaim acceptingWorld⟩

/-- C3: in a process that got through startup, `Delete` returns a nil error for every
provisioner, every volume pointer (nil included) and every world, whatever volume ids the
plugin holds; a second `Delete` of the same volume, run after the first, again returns a
nil error. -/
theorem delete_returns_nil (args : CommandLine) (host : Host) (proc : Process)
    (hinit : init args host = Except.ok proc)
    (p : csiProvisioner) (v : Option PersistentVolume) (w : World) :
    ∃ r1, Delete proc.vars p v w = Except.ok r1 ∧ r1.err = none ∧
      ∃ r2, Delete proc.vars r1.self v r1.world = Except.ok r2 ∧ r2.err = none :=
  ⟨_, Delete_eq proc.vars p v w _ (init_ok hinit).1, rfl,
    _, Delete_eq proc.vars _ v _ _ (init_ok hinit).1, rfl⟩

/-- Witness for C3 at a volume whose id the plugin does not hold. -/
theorem delete_returns_nil_witness :
    init sampleArgs sampleHost = Except.ok sampleProcess ∧
    unknownVolume.volumeId ∉ acceptingWorld.volumes ∧
    ∃ r1, Delete sampleProcess.vars sampleProvisioner (some unknownVolume) acceptingWorld =
        Except.ok r1 ∧ r1.err = none ∧
      ∃ r2, Delete sampleProcess.vars r1.self (some unknownVolume) r1.world = Except.ok r2 ∧
        r2.err = none :=
  ⟨rfl, by decide,
    delete_returns_nil sampleArgs sampleHost sampleProcess rfl sampleProvisioner
      (some unknownVolume) acceptingWorld⟩

/-! ## The identity generated at startup -/

/-- The random draw of `rand.Intn(10000)` lies in `[0, 10000)`. -/
theorem Intn_range (v : Nat) : 0 ≤ Intn v 10000 ∧ Intn v 10000 < 10000 := by
  unfold Intn
  have := Nat.mod_lt v (show 0 < 10000 by decide)
  omega

/-- C4: when startup succeeds with clock reading `host.unixNano` (nanoseconds), random
draw `r` and configured provisioner name `n`, the identity of the provisioner it builds is
`decimal (t / 1000000) ++ "-" ++ decimal r ++ "-" ++ n` with the truncating integer
division of Go, `r` lies in `[0, 10000)`, and the identity ends with `"-" ++ n`. -/
theorem startup_identity_format (args : CommandLine) (host : Host) (proc : Process)
    (hinit : init args host = Except.ok proc) :
    ∃ n r, proc.vars.provisioner = some n ∧ r = Intn host.randSource 10000 ∧
      0 ≤ r ∧ r < 10000 ∧
      proc.provisionController.provisioner.identity =
        decimal (Int.tdiv host.unixNano 1000000) ++ "-" ++ decimal r ++ "-" ++ n ∧
      ("-" ++ n).data <:+ proc.provisionController.provisioner.identity.data := by
  obtain ⟨hp, _, cs, hprov⟩ := init_ok hinit
  refine ⟨_, _, hp, rfl, (Intn_range _).1, (Intn_range _).2, ?_, ?_⟩
  · rw [hprov]
    simp only [NewCSIProvisioner, newCSIProvisionerInternal, identity, Itoa, timeStamp, decimal,
      FormatInt_eq_toString]
  · rw [hprov]
    simp only [NewCSIProvisioner, newCSIProvisionerInternal]
    rw [identity_data]
    refine ⟨(FormatInt (timeStamp host.unixNano)).data ++
      '-' :: (FormatInt (Intn host.randSource 10000)).data, ?_⟩
    simp [String.data_append]

/-- Witness for C4 at the sample host: clock reading 1509494400123456789 ns, draw 8081. -/
theorem startup_identity_format_witness :
    init sampleArgs sampleHost = Except.ok sampleProcess ∧
    ∃ n r, sampleProcess.vars.provisioner = some n ∧ r = Intn sampleHost.randSource 10000 ∧
      0 ≤ r ∧ r < 10000 ∧
      sampleProcess.provisionController.provisioner.identity =
        decimal (Int.tdiv sampleHost.unixNano 1000000) ++ "-" ++ decimal r ++ "-" ++ n ∧
      ("-" ++ n).data <:+ sampleProcess.provisionController.provisioner.identity.data :=
  ⟨rfl, startup_identity_format sampleArgs sampleHost sampleProcess rfl⟩

/-- C5: for non-negative millisecond timestamps `m1`, `m2`, draws `r1`, `r2` in
`[0, 10000)` and one provisioner name `n`, equal identities come from equal timestamps and
equal draws. -/
theorem identity_injective (m1 m2 r1 r2 : Int) (n : String)
    (hm1 : 0 ≤ m1) (hm2 : 0 ≤ m2) (hr1 : 0 ≤ r1 ∧ r1 < 10000) (hr2 : 0 ≤ r2 ∧ r2 < 10000)
    (h : identity m1 r1 n = identity m2 r2 n) : m1 = m2 ∧ r1 = r2 := by
  have hd := congrArg String.data h
  rw [identity_data, identity_data, FormatInt_nonneg_data m1 hm1, FormatInt_nonneg_data m2 hm2,
    FormatInt_nonneg_data r1 hr1.1, FormatInt_nonneg_data r2 hr2.1] at hd
  obtain ⟨e1, e2⟩ := split_at_separator (formatUint_no_minus _) (formatUint_no_minus _) hd
  obtain ⟨e3, _⟩ := split_at_separator (formatUint_no_minus _) (formatUint_no_minus _) e2
  have a1 := formatUint_injective e1
  have a2 := formatUint_injective e3
  omega

/-- Witness for C5 at timestamp 1509494400123 ms and draw 8081. -/
theorem identity_injective_witness :
    identity 1509494400123 8081 "k8s.io/default" = "1509494400123-8081-k8s.io/default" ∧
    ((1509494400123 : Int) = 1509494400123 ∧ (8081 : Int) = 8081) :=
  ⟨rfl, identity_injective 1509494400123 1509494400123 8081 8081 "k8s.io/default"
    (by decide) (by decide) (by decide) (by decide) rfl⟩

/-! ## Redelivery, plugin errors, frame, endpoint resolution, totality -/

/-- C6: in a process that got through startup, a second `Provision` for the same claim,
run on the state the first call left, returns the same volume and the same error as the
first; the result is the same from every starting world; and the plugin holds the same
volumes and has received the same calls after both calls as before them. -/
theorem provision_redelivery_same_result (args : CommandLine) (host : Host) (proc : Process)
    (hinit : init args host = Except.ok proc)
    (p : csiProvisioner) (o : VolumeOptions) (w : World) :
    ∃ r1, Provision proc.vars p o w = Except.ok r1 ∧
      (∃ r2, Provision proc.vars r1.self o r1.world = Except.ok r2 ∧
        r2.volume = r1.volume ∧ r2.err = r1.err ∧
        r2.world.volumes = w.volumes ∧ r2.world.csiCalls = w.csiCalls) ∧
      ∀ w2 : World, ∃ r3, Provision proc.vars p o w2 = Except.ok r3 ∧
        r3.volume = r1.volume ∧ r3.err = r1.err :=
  ⟨_, Provision_eq proc.vars p o w _ (init_ok hinit).1,
    ⟨_, Provision_eq proc.vars _ o _ _ (init_ok hinit).1, rfl, rfl, rfl, rfl⟩,
    fun w2 => ⟨_, Provision_eq proc.vars p o w2 _ (init_ok hinit).1, rfl, rfl⟩⟩

/-- Witness for C6 at a claim of the configured provisioner. -/
theorem provision_redelivery_same_result_witness :
    init sampleArgs sampleHost = Except.ok sampleProcess ∧
    ∃ r1, Provision sampleProcess.vars sampleProvisioner ownClaim acceptingWorld = Except.ok r1 ∧
      (∃ r2, Provision sampleProcess.vars r1.self ownClaim r1.world = Except.ok r2 ∧
        r2.volume = r1.volume ∧ r2.err = r1.err ∧
        r2.world.volumes = acceptingWorld.volumes ∧
        r2.world.csiCalls = acceptingWorld.csiCalls) ∧
      ∀ w2 : World, ∃ r3, Provision sampleProcess.vars sampleProvisioner ownClaim w2 =
          Except.ok r3 ∧ r3.volume = r1.volume ∧ r3.err = r1.err :=
  ⟨rfl, provision_redelivery_same_result sampleArgs sampleHost sampleProcess rfl
    sampleProvisioner ownClaim acceptingWorld⟩

/-- C7, counterexample: the plugin answers the claim with the terminal error
"resource exhausted", and `Provision` returns a nil error, not that error. -/
theorem provision_drops_plugin_error :
    exhaustedWorld.createVolumeReply ownClaim =
        CsiReply.terminal { msg := "resource exhausted" } ∧
    ∃ r, Provision sampleProcess.vars sampleProvisioner ownClaim exhaustedWorld = Except.ok r ∧
      r.err = none ∧ r.err ≠ some { msg := "resource exhausted" } :=
  ⟨rfl, _, Provision_eq sampleProcess.vars sampleProvisioner ownClaim exhaustedWorld
      "k8s.io/default" rfl, rfl, by simp⟩

/-- C7, amended: in a process that got through startup, `Provision` does not consult the
CSI plugin; also when the plugin would answer the claim with a terminal error, `Provision`
returns no volume and a nil error and issues no call to the CSI endpoint. -/
theorem provision_ignores_plugin (args : CommandLine) (host : Host) (proc : Process)
    (hinit : init args host = Except.ok proc)
    (p : csiProvisioner) (o : VolumeOptions) (w : World) (e : GoError)
    (hplugin : w.createVolumeReply o = CsiReply.terminal e) :
    ∃ r, Provision proc.vars p o w = Except.ok r ∧ r.volume = none ∧ r.err = none ∧
      r.world.csiCalls = w.csiCalls ∧ r.world.createVolumeReply o = CsiReply.terminal e :=
  ⟨_, Provision_eq proc.vars p o w _ (init_ok hinit).1, rfl, rfl, rfl, hplugin⟩

/-- Witness for the amended C7 at the plugin that reports "resource exhausted". -/
theorem provision_ignores_plugin_witness :
    init sampleArgs sampleHost = Except.ok sampleProcess ∧
    exhaustedWorld.createVolumeReply foreignClaim =
        CsiReply.terminal { msg := "resource exhausted" } ∧
    ∃ r, Provision sampleProcess.vars sampleProvisioner foreignClaim exhaustedWorld =
        Except.ok r ∧ r.volume = none ∧ r.err = none ∧
      r.world.csiCalls = exhaustedWorld.csiCalls ∧
      r.world.createVolumeReply foreignClaim = CsiReply.terminal { msg := "resource exhausted" } :=
  ⟨rfl, rfl, provision_ignores_plugin sampleArgs sampleHost sampleProcess rfl sampleProvisioner
    foreignClaim exhaustedWorld { msg := "resource exhausted" } rfl⟩

/-- C8: `NewCSIProvisioner client endpoint id` has `identity = id`, `client = client` and
`execCommand = endpoint`; and in a process that got through startup, `Provision` and
`Delete` hand back the receiver with all four fields as they were. -/
theorem identity_fixed_at_construction (args : CommandLine) (host : Host) (proc : Process)
    (hinit : init args host = Except.ok proc)
    (client : Option Clientset) (endpoint id : String)
    (p : csiProvisioner) (o : VolumeOptions) (v : Option PersistentVolume) (w : World) :
    (NewCSIProvisioner client endpoint id).identity = id ∧
    (NewCSIProvisioner client endpoint id).client = client ∧
    (NewCSIProvisioner client endpoint id).execCommand = endpoint ∧
    (∃ r, Provision proc.vars p o w = Except.ok r ∧ r.self.identity = p.identity ∧
      r.self.client = p.client ∧ r.self.execCommand = p.execCommand ∧
      r.self.config = p.config) ∧
    (∃ r, Delete proc.vars p v w = Except.ok r ∧ r.self.identity = p.identity ∧
      r.self.client = p.client ∧ r.self.execCommand = p.execCommand ∧
      r.self.config = p.config) :=
  ⟨rfl, rfl, rfl,
    ⟨_, Provision_eq proc.vars p o w _ (init_ok hinit).1, rfl, rfl, rfl, rfl⟩,
    ⟨_, Delete_eq proc.vars p v w _ (init_ok hinit).1, rfl, rfl, rfl, rfl⟩⟩

/-- Witness for C8 at the provisioner built by the sample startup. -/
theorem identity_fixed_at_construction_witness :
    init sampleArgs sampleHost = Except.ok sampleProcess ∧
    (NewCSIProvisioner none "/tmp/csi.sock" "1-2-x").identity = "1-2-x" ∧
    (NewCSIProvisioner none "/tmp/csi.sock" "1-2-x").client = none ∧
    (NewCSIProvisioner none "/tmp/csi.sock" "1-2-x").execCommand = "/tmp/csi.sock" ∧
    (∃ r, Provision sampleProcess.vars sampleProvisioner ownClaim acceptingWorld = Except.ok r ∧
      r.self.identity = sampleProvisioner.identity ∧
      r.self.client = sampleProvisioner.client ∧
      r.self.execCommand = sampleProvisioner.execCommand ∧
      r.self.config = sampleProvisioner.config) ∧
    (∃ r, Delete sampleProcess.vars sampleProvisioner none acceptingWorld = Except.ok r ∧
      r.self.identity = sampleProvisioner.identity ∧
      r.self.client = sampleProvisioner.client ∧
      r.self.execCommand = sampleProvisioner.execCommand ∧
      r.self.config = sampleProvisioner.config) :=
  ⟨rfl, identity_fixed_at_construction sampleArgs sampleHost sampleProcess rfl none
    "/tmp/csi.sock" "1-2-x" sampleProvisioner ownClaim none acceptingWorld⟩

/-- C9, the code at the failing input: the `--CSI-Endpoint` flag is absent,
`CSI_ENDPOINT` is set to `/var/run/csi.sock`, startup succeeds, and the provisioner is
built with the flag default `/tmp/csi.sock`, not with the value of the variable. -/
theorem startup_ignores_CSI_ENDPOINT_variable :
    sampleArgs.csiEndpoint = none ∧
    sampleHost.getenv "CSI_ENDPOINT" = "/var/run/csi.sock" ∧
    ∃ proc, init sampleArgs sampleHost = Except.ok proc ∧
      proc.provisionController.provisioner.execCommand = "/tmp/csi.sock" ∧
      proc.provisionController.provisioner.execCommand ≠ sampleHost.getenv "CSI_ENDPOINT" :=
  ⟨rfl, rfl, sampleProcess, rfl, rfl, by decide⟩

/-- C10: in a process that got through startup, `Provision` and `Delete` return normally
for every provisioner, every claim, every volume pointer (nil included) and every world:
neither panics nor exits. -/
theorem entry_points_return (args : CommandLine) (host : Host) (proc : Process)
    (hinit : init args host = Except.ok proc)
    (p : csiProvisioner) (o : VolumeOptions) (v : Option PersistentVolume) (w : World) :
    (∃ r, Provision proc.vars p o w = Except.ok r) ∧
    (∃ r, Delete proc.vars p v w = Except.ok r) :=
  ⟨⟨_, Provision_eq proc.vars p o w _ (init_ok hinit).1⟩,
    ⟨_, Delete_eq proc.vars p v w _ (init_ok hinit).1⟩⟩

/-- Witness for C10 at a nil volume pointer. -/
theorem entry_points_return_witness :
    init sampleArgs sampleHost = Except.ok sampleProcess ∧
    (∃ r, Provision sampleProcess.vars sampleProvisioner foreignClaim exhaustedWorld =
      Except.ok r) ∧
    (∃ r, Delete sampleProcess.vars sampleProvisioner none exhaustedWorld = Except.ok r) :=
  ⟨rfl, entry_points_return sampleArgs sampleHost sampleProcess rfl sampleProvisioner
    foreignClaim none exhaustedWorld⟩

end CsiProvisioner
